import Mathlib

/-!
Shallow embedding of the OP-jerbe/stage_controller core: the serial stage
driver (`src/model/stage.py`, class `Stage`) and the homing/centering
controller (`src/controller/controller.py`, class `Controller`).

Modelling conventions:
* Python floats are modelled as exact rationals (`ℚ`); Python `round` is
  round-half-to-even (`pyRound`), Python `int()` truncates toward zero
  (`pyIntTrunc`).
* The serial port is an explicit value: a write-only command returns the
  list of byte strings written to the wire together with an `Except` value
  standing for the Python exception behaviour; a query additionally takes
  the raw byte stream the device would deliver to `read_until`.
* `serial.Serial(...)` construction is abstracted by an environment
  `env : String → Bool` telling, for a (already upper-cased) port name,
  whether the constructor succeeds; a successful construction yields an
  open handle, a failing one raises, which `open_connection` catches.
* `KeyboardInterrupt` delivery during homing is modelled by a schedule
  `intr : ℕ → Bool` consulted at the start of each polling-loop iteration
  (the granularity relevant to the specification); loops carry fuel, with
  fuel exhaustion a distinguished outcome excluded from the theorems.
-/

/-- Python `str.isspace` set relevant to `str.strip()` (ASCII part). -/
def pyIsSpace (c : Char) : Bool :=
  c == ' ' || c == '\t' || c == '\n' || c == '\r' || c == '\x0b' || c == '\x0c'

/-- Python `str.strip()` on the character list. -/
def pyStripL (l : List Char) : List Char :=
  ((l.dropWhile pyIsSpace).reverse.dropWhile pyIsSpace).reverse

/-- Python `str.upper()` (ASCII-adequate). -/
def pyUpper (s : String) : String :=
  String.mk (s.data.map Char.toUpper)

/-- `serial.Serial.read_until(b'\r')`: everything up to and including the
first terminator (or the whole stream when no terminator arrives). -/
def readUntilTerm : List Char → List Char
  | [] => []
  | c :: rest => if c = '\r' then [c] else c :: readUntilTerm rest

/-- Python `str.endswith(t)`. -/
def strEndsWith (s t : String) : Bool :=
  t.data.isSuffixOf s.data

/-- A character `encode('ascii')` accepts. -/
def asciiChar (c : Char) : Bool :=
  decide (c < '\x80')

/-- A string `encode('ascii')` accepts. -/
def isAscii (s : String) : Bool :=
  s.data.all asciiChar

/-- Fuel-driven core of Python `str.replace` (leftmost, non-overlapping). -/
def replAux (pat rep : List Char) : ℕ → List Char → List Char
  | _, [] => []
  | 0, l => l
  | fuel + 1, c :: rest =>
    if pat.isPrefixOf (c :: rest) then
      rep ++ replAux pat rep fuel (List.drop pat.length (c :: rest))
    else
      c :: replAux pat rep fuel rest

/-- Python `s.replace(pat, rep)`. -/
def pyReplace (s pat rep : String) : String :=
  String.mk (replAux pat.data rep.data s.data.length s.data)

/-- Numeric value of a digit string. -/
def digitsVal (l : List Char) : ℕ :=
  l.foldl (fun acc c => 10 * acc + (c.toNat - 48)) 0

/-- The Python exceptions raised by the embedded code. -/
inductive PyError where
  | typeError (msg : String)
  | valueError (msg : String)
  | runtimeError (msg : String)
  | connectionError (msg : String)
  | indexError (msg : String)
  | unicodeError (msg : String)
  | keyboardInterrupt
deriving DecidableEq, Repr

/-- Python `int(s)` for base 10 (sign + digits, surrounding whitespace). -/
def pyInt (s : String) : Except PyError ℤ :=
  match pyStripL s.data with
  | '-' :: rest =>
    if !rest.isEmpty && rest.all Char.isDigit then .ok (-(digitsVal rest : ℤ))
    else .error (.valueError ("invalid literal for int() with base 10: " ++ s))
  | '+' :: rest =>
    if !rest.isEmpty && rest.all Char.isDigit then .ok ((digitsVal rest : ℤ))
    else .error (.valueError ("invalid literal for int() with base 10: " ++ s))
  | rest =>
    if !rest.isEmpty && rest.all Char.isDigit then .ok ((digitsVal rest : ℤ))
    else .error (.valueError ("invalid literal for int() with base 10: " ++ s))

/-- Python `int(c)` for a single-character string. -/
def charInt (c : Char) : Except PyError ℤ :=
  if c.isDigit then .ok ((c.toNat - 48 : ℕ) : ℤ)
  else .error (.valueError ("invalid literal for int() with base 10: " ++ toString c))

/-- Python `round` on a real number: round half to even. -/
def pyRound (q : ℚ) : ℤ :=
  let f := ⌊q⌋
  let r := q - (f : ℚ)
  if r < 1/2 then f
  else if 1/2 < r then f + 1
  else if f % 2 = 0 then f else f + 1

/-- Python `int()` applied to a real number: truncation toward zero. -/
def pyIntTrunc (q : ℚ) : ℤ :=
  if q < 0 then -⌊-q⌋ else ⌊q⌋

/-- Python `l[i]` for a non-negative index, `IndexError` when out of range. -/
def pyIndex (l : List ℤ) (i : ℕ) : Except PyError ℤ :=
  match l.get? i with
  | some v => .ok v
  | none => .error (.indexError "list index out of range")

/-- A Python runtime value, as far as `_check_motor_input` discriminates. -/
inductive PyVal where
  | int (n : ℤ)
  | str (s : String)
  | float (q : ℚ)
  | pynone
deriving DecidableEq, Repr

/-- Python `type(value).__name__`. -/
def PyVal.typeName : PyVal → String
  | .int _ => "int"
  | .str _ => "str"
  | .float _ => "float"
  | .pynone => "NoneType"

/-- `Stage._check_motor_input`. -/
def check_motor_input (value : PyVal) : Except PyError Unit :=
  match value with
  | .int n =>
    if n = 0 ∨ n = 1 ∨ n = 2 then .ok ()
    else .error (.valueError ("Invalid motor selection: " ++ toString n ++
      ". Valid motor selections are [0, 1, 2]."))
  | v => .error (.typeError ("Expected int for motor arg but got " ++ v.typeName ++ "."))

/-- A pyserial handle (`serial.Serial`): only its open state matters here. -/
structure SerialHandle where
  is_open : Bool
deriving DecidableEq, Repr

/-- The mutable state of a `Stage` instance (the lock and the constant
terminator character are not part of the state). -/
structure Stage where
  com_port : Option String
  ser : Option SerialHandle
  motor_max_current : ℚ
  controller_current_range : ℚ
  amps_per_step : ℚ
deriving DecidableEq, Repr

/-- `Stage.MAX_MOTOR_POSITION` (`2.147e9`). -/
def MAX_MOTOR_POSITION : ℚ := 2147000000

/-- `Stage.CONTROLLER_CURRENT_RANGE` (amps). -/
def CONTROLLER_CURRENT_RANGE : ℚ := 2

/-- `Stage.CONTROLLER_MAX_CURRENT_VALUE`. -/
def CONTROLLER_MAX_CURRENT_VALUE : ℤ := 31

/-- `Stage.SET_POINTS`. -/
def SET_POINTS : List ℤ := [0, 1, 2, 3, 4, 5, 6, 7, 8, 9]

/-- Python truthiness of `self.ser` combined with `self.ser.is_open`. -/
def Stage.serial_is_open (st : Stage) : Bool :=
  match st.ser with
  | some h => h.is_open
  | none => false

/-- `Stage.open_connection`: `env` abstracts the `serial.Serial`
constructor, applied to the upper-cased port name; on failure the caught
exception leaves `self.ser = None`. -/
def Stage.open_connection (st : Stage) (env : String → Bool) (port : String) : Stage :=
  if env (pyUpper port) then { st with ser := some ⟨true⟩ }
  else { st with ser := none }

/-- `Stage.__init__`. -/
def mkStage (env : String → Bool) (com_port : Option String)
    (motor_max_current : ℚ) (low_current_range : Bool) : Stage :=
  let ccr : ℚ := if low_current_range then 1 else CONTROLLER_CURRENT_RANGE
  let st : Stage :=
    { com_port := com_port
      ser := none
      motor_max_current := motor_max_current
      controller_current_range := ccr
      amps_per_step := ccr / (CONTROLLER_MAX_CURRENT_VALUE : ℚ) }
  match com_port with
  | some p => st.open_connection env p
  | none => st

/-- The message of the not-connected `RuntimeError`. -/
def notConnectedMsg : String :=
  "Attempted to communicate with stage, but no instrument is connected."

/-- Terminator framing in `_send_command`/`_send_query`: append `'\r'`
when the command does not already end with it. -/
def frameCmd (command : String) : String :=
  if strEndsWith command "\r" then command else command ++ "\r"

/-- `f':{motor}{rest}'`. -/
def cmdCore (motor : ℤ) (rest : String) : String :=
  ":" ++ toString motor ++ rest

/-- A command with no trailing value, e.g. `f':{motor}p'`. -/
def cmd2 (motor : ℤ) (op : String) : String :=
  cmdCore motor op

/-- A command with a trailing integer value, e.g. `f':{motor}v{value}'`. -/
def cmd3 (motor : ℤ) (op : String) (value : ℤ) : String :=
  cmdCore motor (op ++ toString value)

/-- `Stage._send_command`: raises when not connected, frames, writes. The
result is the Python outcome together with the byte strings written. -/
def Stage.send_command (st : Stage) (command : String) :
    Except PyError Unit × List String :=
  if st.serial_is_open = true then
    if isAscii (frameCmd command) = true then (.ok (), [frameCmd command])
    else (.error (.connectionError "Serial Communication Error"), [])
  else (.error (.runtimeError notConnectedMsg), [])

/-- `Stage._readline`: `read_until`, ASCII decode, `strip()`. -/
def Stage.readline (st : Stage) (raw : String) : Except PyError String :=
  match st.ser with
  | none => .error (.runtimeError "No serial port connection.")
  | some _ =>
    let line := readUntilTerm raw.data
    if line.all asciiChar then .ok (String.mk (pyStripL line))
    else .error (.unicodeError "ascii codec can not decode response")

/-- `Stage._send_query`: raises when not connected, frames, clears the
input buffer, writes the query, reads one line. `raw` is the byte stream
the device delivers. -/
def Stage.send_query (st : Stage) (raw : String) (query : String) :
    Except PyError String × List String :=
  if st.serial_is_open = true then
    if isAscii (frameCmd query) = true then
      match st.readline raw with
      | .error e => (.error e, [frameCmd query])
      | .ok resp => (.ok resp, [frameCmd query])
    else (.error (.unicodeError "ascii codec can not encode query"), [])
  else (.error (.runtimeError notConnectedMsg), [])

/-- `Stage.setVelocity`. -/
def Stage.setVelocity (st : Stage) (motor : ℤ) (value : ℤ) :
    Except PyError Unit × List String :=
  match check_motor_input (.int motor) with
  | .error e => (.error e, [])
  | .ok _ =>
    if 0 ≤ value ∧ value ≤ 65535 then st.send_command (cmd3 motor "v" value)
    else (.error (.valueError ("Invalid velocity setting: " ++ toString value ++
      ". Velocity setting must be between 0 and 65535.")), [])

/-- `Stage.jog` (no range check on `steps` in the source). -/
def Stage.jog (st : Stage) (motor : ℤ) (steps : ℤ) :
    Except PyError Unit × List String :=
  match check_motor_input (.int motor) with
  | .error e => (.error e, [])
  | .ok _ => st.send_command (cmd3 motor "j" steps)

/-- `Stage.gotoPos`. -/
def Stage.gotoPos (st : Stage) (motor : ℤ) (position : ℤ) :
    Except PyError Unit × List String :=
  match check_motor_input (.int motor) with
  | .error e => (.error e, [])
  | .ok _ =>
    if -MAX_MOTOR_POSITION ≤ (position : ℚ) ∧ (position : ℚ) ≤ MAX_MOTOR_POSITION then
      st.send_command (cmd3 motor "p" position)
    else (.error (.valueError ("Invalid position setting: " ++ toString position ++
      ". Position setting must be between " ++ toString (-MAX_MOTOR_POSITION) ++
      " and " ++ toString MAX_MOTOR_POSITION ++ ".")), [])

/-- `Stage.halt`. -/
def Stage.halt (st : Stage) (motor : ℤ) (value : ℤ) :
    Except PyError Unit × List String :=
  match check_motor_input (.int motor) with
  | .error e => (.error e, [])
  | .ok _ =>
    if value = 1 ∨ value = 2 then st.send_command (cmd3 motor "h" value)
    else (.error (.valueError ("Invalid value selection: " ++ toString motor ++
      ". Value selection must be 1 or 2.")), [])

/-- `Stage.initMotor`. -/
def Stage.initMotor (st : Stage) (motor : ℤ) :
    Except PyError Unit × List String :=
  match check_motor_input (.int motor) with
  | .error e => (.error e, [])
  | .ok _ => st.send_command (cmd2 motor "i1")

/-- `Stage.gotoSetPoint`. -/
def Stage.gotoSetPoint (st : Stage) (motor : ℤ) (set_point : ℤ) :
    Except PyError Unit × List String :=
  match check_motor_input (.int motor) with
  | .error e => (.error e, [])
  | .ok _ =>
    if set_point ∈ SET_POINTS then st.send_command (cmd3 motor "d" set_point)
    else (.error (.valueError
      "Invalid set point selection. Valid set points are [0, 1, 2, 3, 4, 5, 6, 7, 8, 9]."), [])

/-- `Stage.setDirection`: note the source upper-cases the argument before
matching it against `'CW'`/`'CCW'`. -/
def Stage.setDirection (st : Stage) (motor : ℤ) (direction : String) :
    Except PyError Unit × List String :=
  match check_motor_input (.int motor) with
  | .error e => (.error e, [])
  | .ok _ =>
    let d := pyUpper direction
    if d = "CW" then st.send_command (cmd3 motor "C" 0)
    else if d = "CCW" then st.send_command (cmd3 motor "C" 1)
    else (.error (.valueError ("Invalid direction " ++ direction ++
      ". Valid directions are \x22CW\x22 or \x22CCW\x22.")), [])

/-- `Stage.setBaud`. -/
def Stage.setBaud (st : Stage) (motor : ℤ) (baud : ℤ) :
    Except PyError Unit × List String :=
  match check_motor_input (.int motor) with
  | .error e => (.error e, [])
  | .ok _ =>
    if baud = 9600 then st.send_command (cmd3 motor "B" 1)
    else if baud = 19200 then st.send_command (cmd3 motor "B" 2)
    else if baud = 38400 then st.send_command (cmd3 motor "B" 3)
    else if baud = 57600 then st.send_command (cmd3 motor "B" 4)
    else if baud = 115200 then st.send_command (cmd3 motor "B" 5)
    else (.error (.valueError ("Invalid baud setting: " ++ toString baud ++
      ". Valid baud settings: [9600, 19200, 38400, 57600, 115200]")), [])

/-- `Stage.setCurrRange`: sends, then updates `controller_current_range`
(but, as in the source, never recomputes `amps_per_step`). -/
def Stage.setCurrRange (st : Stage) (motor : ℤ) (value : ℤ) :
    Except PyError Unit × List String × Stage :=
  match check_motor_input (.int motor) with
  | .error e => (.error e, [], st)
  | .ok _ =>
    if value = 0 ∨ value = 1 then
      match st.send_command (cmd3 motor "O" value) with
      | (.ok _, w) =>
        (.ok (), w, { st with controller_current_range := if value = 0 then 2 else 1 })
      | (.error e, w) => (.error e, w, st)
    else (.error (.valueError ("Invalid range value: " ++ toString value ++
      ". Valid range values are 0 (high range = 2.0A) or 1 (low range = 1.0A)")), [], st)

/-- `Stage.setHoldingCurr`. -/
def Stage.setHoldingCurr (st : Stage) (motor : ℤ) (amps : ℚ) :
    Except PyError Unit × List String :=
  match check_motor_input (.int motor) with
  | .error e => (.error e, [])
  | .ok _ =>
    if amps < 0 then
      (.error (.valueError ("Current cannot be negative (got " ++ toString amps ++ "A).")), [])
    else if st.motor_max_current < amps then
      (.error (.valueError ("Current " ++ toString amps ++
        "A exceeds safe limit for this motor (" ++ toString st.motor_max_current ++
        "A). Higher current may cause overheating or winding damage.")), [])
    else
      let motor_max_value := pyIntTrunc (st.motor_max_current / st.amps_per_step)
      let value := pyRound (amps / st.amps_per_step)
      let value := max 0 (min value (min motor_max_value CONTROLLER_MAX_CURRENT_VALUE))
      st.send_command (cmd3 motor "H" value)

/-- `Stage.setRunCurr`. -/
def Stage.setRunCurr (st : Stage) (motor : ℤ) (amps : ℚ) :
    Except PyError Unit × List String :=
  match check_motor_input (.int motor) with
  | .error e => (.error e, [])
  | .ok _ =>
    if amps < 0 then
      (.error (.valueError ("Current cannot be negative (got " ++ toString amps ++ "A).")), [])
    else if st.motor_max_current < amps then
      (.error (.valueError ("Current " ++ toString amps ++
        "A exceeds safe limit for this motor (" ++ toString st.motor_max_current ++
        "A). Higher current may cause overheating or winding damage.")), [])
    else
      let motor_max_value := pyIntTrunc (st.motor_max_current / st.amps_per_step)
      let value := pyRound (amps / st.amps_per_step)
      let value := max 0 (min value (min motor_max_value CONTROLLER_MAX_CURRENT_VALUE))
      st.send_command (cmd3 motor "R" value)

/-- `Stage.getNVVelocity`. -/
def Stage.getNVVelocity (st : Stage) (raw : String) (motor : ℤ) :
    Except PyError ℤ × List String :=
  match check_motor_input (.int motor) with
  | .error e => (.error e, [])
  | .ok _ =>
    match st.send_query raw (cmd2 motor "v") with
    | (.error e, w) => (.error e, w)
    | (.ok resp, w) =>
      match pyInt (pyReplace resp (cmd2 motor "v") "") with
      | .error e => (.error e, w)
      | .ok n => (.ok n, w)

/-- `Stage.getNVSpeed`: translated as written in the source, which — unlike
every other getter — does NOT call `_check_motor_input`. -/
def Stage.getNVSpeed (st : Stage) (raw : String) (motor : ℤ) :
    Except PyError ℤ × List String :=
  match st.send_query raw (cmd2 motor "S") with
  | (.error e, w) => (.error e, w)
  | (.ok resp, w) =>
    match pyInt (pyReplace resp (cmd2 motor "S") "") with
    | .error e => (.error e, w)
    | .ok n => (.ok n, w)

/-- `Stage.getPos`. -/
def Stage.getPos (st : Stage) (raw : String) (motor : ℤ) :
    Except PyError ℤ × List String :=
  match check_motor_input (.int motor) with
  | .error e => (.error e, [])
  | .ok _ =>
    match st.send_query raw (cmd2 motor "p") with
    | (.error e, w) => (.error e, w)
    | (.ok resp, w) =>
      match pyInt (pyReplace resp (cmd2 motor "p") "") with
      | .error e => (.error e, w)
      | .ok n => (.ok n, w)

/-- `Stage.getIdxStates`. -/
def Stage.getIdxStates (st : Stage) (raw : String) (motor : ℤ) :
    Except PyError (List ℤ) × List String :=
  match check_motor_input (.int motor) with
  | .error e => (.error e, [])
  | .ok _ =>
    match st.send_query raw (cmd2 motor "l") with
    | (.error e, w) => (.error e, w)
    | (.ok resp, w) =>
      match (pyReplace resp (cmd2 motor "l") "").data.mapM charInt with
      | .error e => (.error e, w)
      | .ok vals => (.ok vals, w)

/-- The device side of one homing run: the raw byte streams delivered in
response to the two `getNVVelocity` queries, and to the n-th
`getIdxStates` / `getPos` query pair. -/
structure HomeDevice where
  nv1 : String
  nv2 : String
  idx : ℕ → String
  pos : ℕ → String

/-- Outcome of `Controller.home`. -/
inductive HomeOutcome where
  | completed
  | interrupted
  | failed (e : PyError)
  | outOfFuel
deriving DecidableEq, Repr

/-- Result of `Controller.home`: Python outcome, wire log, homed flag. -/
structure HomeResult where
  outcome : HomeOutcome
  written : List String
  homed : Bool
deriving DecidableEq, Repr

/-- Exit of one polling loop of `Controller.home`. -/
inductive PollExit where
  | done (i2 : ℤ) (n : ℕ)
  | interrupted
  | failed (e : PyError)
  | outOfFuel
deriving DecidableEq, Repr

/-- One `while input2 != target:` polling loop of `Controller.home`:
re-read `getIdxStates(motor)[1]`, read `getPos(motor)`, sleep 250 ms,
repeat. `n` numbers the iterations (also indexing the device responses);
`intr n` tells whether the user interrupt arrives during iteration `n`. -/
def pollLoop (dev : HomeDevice) (intr : ℕ → Bool) (st : Stage) (motor : ℤ)
    (target : ℤ) : ℕ → ℤ → ℕ → PollExit × List String
  | 0, i2, n =>
    if i2 = target then (.done i2 n, []) else (.outOfFuel, [])
  | fuel + 1, i2, n =>
    if i2 = target then (.done i2 n, [])
    else if intr n then (.interrupted, [])
    else
      match st.getIdxStates (dev.idx n) motor with
      | (.error e, w) => (.failed e, w)
      | (.ok vals, w1) =>
        match pyIndex vals 1 with
        | .error e => (.failed e, w1)
        | .ok i2b =>
          match st.getPos (dev.pos n) motor with
          | (.error e, w2) => (.failed e, w1 ++ w2)
          | (.ok _, w2) =>
            ((pollLoop dev intr st motor target fuel i2b (n + 1)).1,
              w1 ++ w2 ++ (pollLoop dev intr st motor target fuel i2b (n + 1)).2)

/-- Sequencing of the `try:` body of `Controller.home`: an exception
aborts the rest, keeping the bytes already written. -/
def seqW {α : Type} (x : Except PyError α × List String)
    (f : α → HomeOutcome × List String) : HomeOutcome × List String :=
  match x with
  | (.error e, w) => (.failed e, w)
  | (.ok a, w) => ((f a).1, w ++ (f a).2)

/-- Sequencing of a polling loop inside the `try:` body. -/
def seqP (x : PollExit × List String) (f : ℤ → ℕ → HomeOutcome × List String) :
    HomeOutcome × List String :=
  match x with
  | (.done i2 n, w) => ((f i2 n).1, w ++ (f i2 n).2)
  | (.interrupted, w) => (.interrupted, w)
  | (.failed e, w) => (.failed e, w)
  | (.outOfFuel, w) => (.outOfFuel, w)

/-- The `try:` body of `Controller.home`, line by line:
`speed = speed or getNVVelocity(motor)` (Python `or`: `0` and `None` are
falsy), the second `getNVVelocity` comparison, the conditional
`setVelocity`, `gotoPos(motor, int(-MAX_MOTOR_POSITION))`, the first
`getIdxStates(motor)[1]` read, the seek-limit loop (target 1),
`halt(motor)`, `setVelocity(motor, 1000)`, `jog(motor, 5000)`, the
back-off loop (target 0), `initMotor(motor)`, then `self.homed = True`. -/
def homeBody (dev : HomeDevice) (intr : ℕ → Bool) (fuel : ℕ) (st : Stage)
    (motor : ℤ) (speed0 : Option ℤ) : HomeOutcome × List String :=
  seqW (match speed0 with
        | some s => if s ≠ 0 then (.ok s, []) else st.getNVVelocity dev.nv1 motor
        | none => st.getNVVelocity dev.nv1 motor) fun speed =>
  seqW (st.getNVVelocity dev.nv2 motor) fun nv =>
  seqW (if speed ≠ nv then st.setVelocity motor speed else (.ok (), [])) fun _ =>
  seqW (st.gotoPos motor (pyIntTrunc (-MAX_MOTOR_POSITION))) fun _ =>
  seqW (st.getIdxStates (dev.idx 0) motor) fun vals =>
  seqW (pyIndex vals 1, []) fun i2 =>
  seqP (pollLoop dev intr st motor 1 fuel i2 1) fun i2 n =>
  seqW (st.halt motor 1) fun _ =>
  seqW (st.setVelocity motor 1000) fun _ =>
  seqW (st.jog motor 5000) fun _ =>
  seqP (pollLoop dev intr st motor 0 fuel i2 n) fun _ _ =>
  seqW (st.initMotor motor) fun _ =>
  (.completed, [])

/-- `Controller.home`: run the body under
`except KeyboardInterrupt: halt(motor); raise`. Only a completed run sets
the homed flag; any exception leaves it at `homed0`. -/
def Controller.home (dev : HomeDevice) (intr : ℕ → Bool) (fuel : ℕ) (st : Stage)
    (homed0 : Bool) (motor : ℤ) (speed0 : Option ℤ) : HomeResult :=
  match homeBody dev intr fuel st motor speed0 with
  | (.completed, w) => { outcome := .completed, written := w, homed := true }
  | (.interrupted, w) =>
    match st.halt motor 1 with
    | (.ok _, wh) => { outcome := .interrupted, written := w ++ wh, homed := homed0 }
    | (.error e, wh) => { outcome := .failed e, written := w ++ wh, homed := homed0 }
  | (.failed e, w) => { outcome := .failed e, written := w, homed := homed0 }
  | (.outOfFuel, w) => { outcome := .outOfFuel, written := w, homed := homed0 }

/-- `Controller.center`: `if self.homed: self.s.gotoSetPoint(motor, 0)`. -/
def Controller.center (st : Stage) (homed : Bool) (motor : ℤ) :
    Except PyError Unit × List String :=
  if homed then st.gotoSetPoint motor 0 else (.ok (), [])

/-- The claimed clamp formula for the current setters:
`max(0, min(round(amps / amps_per_step), floor(motor_max_current / amps_per_step), 31))`. -/
def claimCurrValue (st : Stage) (amps : ℚ) : ℤ :=
  max 0 (min (pyRound (amps / st.amps_per_step))
    (min ⌊st.motor_max_current / st.amps_per_step⌋ CONTROLLER_MAX_CURRENT_VALUE))

/-- "The written bytes end in exactly one terminator." -/
def endsInExactlyOneTerm (s : String) : Bool :=
  strEndsWith s "\r" && !strEndsWith s "\r\r"

/-- A decimal digit character. -/
def isDigitCh (c : Char) : Bool :=
  ['0', '1', '2', '3', '4', '5', '6', '7', '8', '9'].contains c

/-- An integer literal as `int()` accepts without sign tricks: digits, or
a minus sign followed by digits. -/
def isIntLit (s : String) : Bool :=
  match s.data with
  | [] => false
  | a :: t => if a = '-' then !t.isEmpty && t.all isDigitCh else (a :: t).all isDigitCh

/-- A stage built as `Stage('COM3', motor_max_current=0.62,
low_current_range=True)` whose serial constructor succeeds. -/
def stOpen : Stage := mkStage (fun _ => true) (some "COM3") (31/50) true

/-- A stage whose serial constructor failed at construction time. -/
def stClosed : Stage := mkStage (fun _ => false) (some "COM7") (31/50) true

/-- A stage built without a port (`com_port=None`). -/
def stLow : Stage := mkStage (fun _ => true) none (31/50) true

/-- A homing device whose input-2 switch is already active at the first
read: the seek loop exits at once, the limit-found halt is sent, and the
back-off loop is entered. -/
def cdev : HomeDevice :=
  { nv1 := "2000\r", nv2 := "2000\r", idx := fun _ => "11\r", pos := fun _ => "0\r" }

/-- A homing device whose input-2 switch stays inactive: the seek loop is
entered immediately. -/
def cdevW : HomeDevice :=
  { nv1 := "2000\r", nv2 := "2000\r", idx := fun _ => "00\r", pos := fun _ => "0\r" }

/-- Interrupt schedule: the user hits Ctrl+C during polling iteration 1
(the first iteration of whichever loop is running then). -/
def cintr : ℕ → Bool := fun n => n == 1

/-- Decidable equality for `Except` results, so closed runs of the model
can be settled by evaluation. -/
instance {ε α : Type} [DecidableEq ε] [DecidableEq α] : DecidableEq (Except ε α)
  | .ok a, .ok b =>
    match decEq a b with
    | isTrue h => isTrue (by rw [h])
    | isFalse h => isFalse (by intro hh; cases hh; exact h rfl)
  | .error a, .error b =>
    match decEq a b with
    | isTrue h => isTrue (by rw [h])
    | isFalse h => isFalse (by intro hh; cases hh; exact h rfl)
  | .ok _, .error _ => isFalse (by intro hh; cases hh)
  | .error _, .ok _ => isFalse (by intro hh; cases hh)

/-! ### String and character helper lemmas -/

theorem singleton_isSuffixOf_iff (c : Char) (l : List Char) :
    List.isSuffixOf [c] l = true ↔ l.getLast? = some c := by
  rw [List.isSuffixOf, List.getLast?_eq_head?_reverse]
  rcases hl : l.reverse with _ | ⟨b, t⟩
  · simp
  · rw [List.reverse_singleton, List.isPrefixOf_cons₂]
    simp only [List.isPrefixOf_nil_left, Bool.and_true, beq_iff_eq, List.head?_cons,
      Option.some.injEq]
    exact eq_comm

theorem strEndsWith_term_iff (s : String) :
    strEndsWith s "\r" = true ↔ s.data.getLast? = some '\r' := by
  have h : ("\r" : String).data = ['\r'] := rfl
  rw [strEndsWith, h, singleton_isSuffixOf_iff]

theorem frameCmd_eq_self (s : String) (h : s.data.getLast? = some '\r') :
    frameCmd s = s := by
  have hc : strEndsWith s "\r" = true := (strEndsWith_term_iff s).mpr h
  simp [frameCmd, hc]

theorem frameCmd_eq_append (s : String) (h : s.data.getLast? ≠ some '\r') :
    frameCmd s = s ++ "\r" := by
  have hc : strEndsWith s "\r" = false := by
    cases hc : strEndsWith s "\r"
    · rfl
    · exact absurd ((strEndsWith_term_iff s).mp hc) h
  simp [frameCmd, hc]

theorem strEndsWith_append_term (s : String) :
    strEndsWith (s ++ "\r") "\r" = true := by
  rw [strEndsWith_term_iff, String.data_append]
  rw [List.getLast?_append_of_ne_nil _ (by simp : ("\r" : String).data ≠ [])]
  rfl

theorem frameCmd_endsWith_term (s : String) :
    strEndsWith (frameCmd s) "\r" = true := by
  unfold frameCmd
  cases hc : strEndsWith s "\r"
  · simp only [Bool.false_eq_true, if_false]
    exact strEndsWith_append_term s
  · simpa using hc

theorem getLast?_mem_of_ne_nil {l : List Char} (h : l ≠ []) :
    ∃ c, l.getLast? = some c ∧ c ∈ l := by
  rcases l with _ | ⟨a, t⟩
  · exact absurd rfl h
  · exact ⟨(a :: t).getLast (by simp), List.getLast?_eq_getLast _ _, List.getLast_mem _⟩

theorem digitChar_mem_digits (n : ℕ) :
    Nat.digitChar (n % 10) ∈ ['0', '1', '2', '3', '4', '5', '6', '7', '8', '9'] := by
  have h : n % 10 < 10 := Nat.mod_lt _ (by norm_num)
  set k := n % 10 with hk
  interval_cases k <;> decide

theorem toDigitsCore_spec (fuel : ℕ) :
    ∀ (n : ℕ) (acc : List Char), ∃ pre,
      Nat.toDigitsCore 10 fuel n acc = pre ++ acc ∧
      (∀ c ∈ pre, c ∈ ['0', '1', '2', '3', '4', '5', '6', '7', '8', '9']) ∧
      (fuel ≠ 0 → pre ≠ []) := by
  induction fuel with
  | zero =>
    intro n acc
    exact ⟨[], rfl, by simp, by simp⟩
  | succ fuel ih =>
    intro n acc
    by_cases h : n / 10 = 0
    · refine ⟨[Nat.digitChar (n % 10)], ?_, ?_, ?_⟩
      · simp [Nat.toDigitsCore, h]
      · intro c hc
        rcases List.mem_singleton.mp hc with rfl
        exact digitChar_mem_digits n
      · simp
    · obtain ⟨pre, hpre, hdig, _⟩ := ih (n / 10) (Nat.digitChar (n % 10) :: acc)
      refine ⟨pre ++ [Nat.digitChar (n % 10)], ?_, ?_, ?_⟩
      · simp only [Nat.toDigitsCore, h, if_false]
        rw [hpre, List.append_assoc, List.singleton_append]
      · intro c hc
        rcases List.mem_append.mp hc with hc | hc
        · exact hdig c hc
        · rcases List.mem_singleton.mp hc with rfl
          exact digitChar_mem_digits n
      · simp

theorem natRepr_spec (n : ℕ) :
    (Nat.repr n).data ≠ [] ∧
    ∀ c ∈ (Nat.repr n).data, c ∈ ['0', '1', '2', '3', '4', '5', '6', '7', '8', '9'] := by
  obtain ⟨pre, hpre, hdig, hne⟩ := toDigitsCore_spec (n + 1) n []
  have hdata : (Nat.repr n).data = pre := by
    show (Nat.toDigits 10 n).asString.data = pre
    rw [Nat.toDigits, hpre, List.append_nil]
    rfl
  refine ⟨?_, ?_⟩
  · rw [hdata]; exact hne (by simp)
  · rw [hdata]; exact hdig

theorem intStr_spec (n : ℤ) :
    (toString n).data ≠ [] ∧
    (∀ c ∈ (toString n).data,
      c ∈ ['-', '0', '1', '2', '3', '4', '5', '6', '7', '8', '9']) ∧
    (∃ c, (toString n).data.getLast? = some c ∧
      c ∈ ['0', '1', '2', '3', '4', '5', '6', '7', '8', '9']) := by
  cases n with
  | ofNat m =>
    have h : toString (Int.ofNat m) = Nat.repr m := rfl
    obtain ⟨hne, hdig⟩ := natRepr_spec m
    refine ⟨by rw [h]; exact hne, ?_, ?_⟩
    · intro c hc
      rw [h] at hc
      exact List.mem_cons_of_mem _ (hdig c hc)
    · obtain ⟨c, hc, hmem⟩ := getLast?_mem_of_ne_nil hne
      exact ⟨c, by rw [h]; exact hc, hdig c hmem⟩
  | negSucc m =>
    have h : toString (Int.negSucc m) = "-" ++ Nat.repr (m + 1) := rfl
    obtain ⟨hne, hdig⟩ := natRepr_spec (m + 1)
    have hdata : (toString (Int.negSucc m)).data = '-' :: (Nat.repr (m + 1)).data := by
      rw [h, String.data_append]
      rfl
    refine ⟨by rw [hdata]; simp, ?_, ?_⟩
    · intro c hc
      rw [hdata] at hc
      rcases List.mem_cons.mp hc with rfl | hc
      · simp
      · exact List.mem_cons_of_mem _ (hdig c hc)
    · obtain ⟨c, hc, hmem⟩ := getLast?_mem_of_ne_nil hne
      refine ⟨c, ?_, hdig c hmem⟩
      rw [hdata]
      rw [show '-' :: (Nat.repr (m + 1)).data = ['-'] ++ (Nat.repr (m + 1)).data from rfl]
      rw [List.getLast?_append_of_ne_nil _ hne]
      exact hc

theorem cmdCore_data (m : ℤ) (r : String) :
    (cmdCore m r).data = ':' :: ((toString m).data ++ r.data) := by
  show ((":" ++ toString m) ++ r).data = _
  rw [String.data_append, String.data_append]
  rfl

theorem cmdCore_getLast? (m : ℤ) (r : String) (h : r.data ≠ []) :
    (cmdCore m r).data.getLast? = r.data.getLast? := by
  rw [cmdCore_data]
  rw [show ':' :: ((toString m).data ++ r.data) =
    (':' :: (toString m).data) ++ r.data from rfl]
  exact List.getLast?_append_of_ne_nil _ h

theorem cmd3_getLast (m : ℤ) (op : String) (v : ℤ) :
    ∃ c, (cmd3 m op v).data.getLast? = some c ∧
      c ∈ ['0', '1', '2', '3', '4', '5', '6', '7', '8', '9'] := by
  obtain ⟨hne, _, c, hc, hmem⟩ := intStr_spec v
  refine ⟨c, ?_, hmem⟩
  show (cmdCore m (op ++ toString v)).data.getLast? = some c
  rw [cmdCore_getLast?]
  · rw [String.data_append, List.getLast?_append_of_ne_nil _ hne]
    exact hc
  · rw [String.data_append]
    intro habs
    exact hne (List.append_eq_nil.mp habs).2

theorem frame_cmd3 (m : ℤ) (op : String) (v : ℤ) :
    frameCmd (cmd3 m op v) = cmd3 m op v ++ "\r" := by
  obtain ⟨c, hc, hmem⟩ := cmd3_getLast m op v
  apply frameCmd_eq_append
  rw [hc]
  intro heq
  have : c = '\r' := by injection heq
  subst this
  exact absurd hmem (by decide)

theorem frame_cmd2 (m : ℤ) (op : String) (c : Char)
    (hop : op.data.getLast? = some c) (hc : c ≠ '\r') :
    frameCmd (cmd2 m op) = cmd2 m op ++ "\r" := by
  have hne : op.data ≠ [] := by
    intro h
    rw [h] at hop
    cases hop
  apply frameCmd_eq_append
  show (cmdCore m op).data.getLast? ≠ some '\r'
  rw [cmdCore_getLast? m op hne, hop]
  intro heq
  exact hc (by injection heq)

theorem isAscii_append (s t : String) :
    isAscii (s ++ t) = (isAscii s && isAscii t) := by
  simp [isAscii, String.data_append, List.all_append]

theorem intStr_ascii (n : ℤ) : isAscii (toString n) = true := by
  obtain ⟨_, hmem, _⟩ := intStr_spec n
  rw [isAscii, List.all_eq_true]
  intro c hc
  have := hmem c hc
  fin_cases this <;> decide

theorem cmd3_ascii (m : ℤ) (op : String) (v : ℤ) (hop : isAscii op = true) :
    isAscii (cmd3 m op v) = true := by
  show isAscii (":" ++ toString m ++ (op ++ toString v)) = true
  rw [isAscii_append, isAscii_append, isAscii_append]
  rw [intStr_ascii, intStr_ascii, hop]
  rfl

theorem cmd2_ascii (m : ℤ) (op : String) (hop : isAscii op = true) :
    isAscii (cmd2 m op) = true := by
  show isAscii (":" ++ toString m ++ op) = true
  rw [isAscii_append, isAscii_append]
  rw [intStr_ascii, hop]
  rfl

theorem send_command_ok (st : Stage) (c : String)
    (hopen : st.serial_is_open = true) (hascii : isAscii (frameCmd c) = true) :
    st.send_command c = (.ok (), [frameCmd c]) := by
  simp [Stage.send_command, hopen, hascii]

theorem send_command_cmd3 (st : Stage) (m : ℤ) (op : String) (v : ℤ)
    (hopen : st.serial_is_open = true) (hop : isAscii op = true) :
    st.send_command (cmd3 m op v) = (.ok (), [cmd3 m op v ++ "\r"]) := by
  rw [send_command_ok st _ hopen, frame_cmd3]
  rw [frame_cmd3, isAscii_append, cmd3_ascii m op v hop]
  rfl

/-! ### Claim theorems -/

/-- Claim C1: the claim states that every public set/get method of `Stage`
rejects a motor argument outside `{0, 1, 2}` (TypeError for a non-int,
ValueError for an out-of-range int) before any transport call. The code
violates this: `getNVSpeed` omits the `_check_motor_input` call, so
`getNVSpeed(5)` on a connected stage writes the query `':5S'` to the
transport and returns the parsed response instead of raising. The second
and third conjuncts record what the validator would have produced. -/
theorem claim_C1_getNVSpeed_skips_validation :
    Stage.getNVSpeed stOpen ":5S17\r" 5 = (.ok 17, [":5S\r"]) ∧
    check_motor_input (.int 5) = .error (.valueError
      "Invalid motor selection: 5. Valid motor selections are [0, 1, 2].") ∧
    check_motor_input (.str "x") = .error (.typeError
      "Expected int for motor arg but got str.") := by
  refine ⟨by decide, by decide, by decide⟩

/-- Claim C2 counterexample: homing motor 1 with the input-2 switch active
at the first read reaches the back-off loop after the limit-found halt has
already been sent; a user interrupt during that loop makes the run send
TWO halt commands to motor 1 before the interrupt is re-raised, refuting
"exactly one halt command is sent ... before the interrupt is re-raised".
-/
theorem claim_C2_counterexample :
    (Controller.home cdev cintr 10 stOpen false 1 (some 2000)).outcome =
      HomeOutcome.interrupted ∧
    (Controller.home cdev cintr 10 stOpen false 1 (some 2000)).homed = false ∧
    (Controller.home cdev cintr 10 stOpen false 1 (some 2000)).written.count
      (cmd3 1 "h" 1 ++ "\r") = 2 := by
  refine ⟨by decide, by decide, by decide⟩

/-- Claim C4: the claim states `amps_per_step = controller_current_range / 31`
holds after construction and is preserved by every operation, in particular
by `setCurrRange`. The code violates this: the invariant holds after
`__init__` (first conjunct), but `setCurrRange(1, 0)` on a low-range stage
updates `controller_current_range` to 2.0 while leaving `amps_per_step` at
the stale `1/31`, so subsequent current conversions use the old range. -/
theorem claim_C4_amps_per_step_stale :
    stLow.amps_per_step = stLow.controller_current_range / 31 ∧
    (Stage.setCurrRange stOpen 1 0).1 = .ok () ∧
    (Stage.setCurrRange stOpen 1 0).2.2.controller_current_range = 2 ∧
    (Stage.setCurrRange stOpen 1 0).2.2.amps_per_step = 1 / 31 ∧
    (Stage.setCurrRange stOpen 1 0).2.2.amps_per_step ≠
      (Stage.setCurrRange stOpen 1 0).2.2.controller_current_range / 31 := by
  have haps : stOpen.amps_per_step = 1 / 31 := by
    show (mkStage (fun _ => true) (some "COM3") (31/50) true).amps_per_step = 1 / 31
    simp [mkStage, Stage.open_connection, CONTROLLER_MAX_CURRENT_VALUE]
  have hopen : stOpen.serial_is_open = true := by decide
  have hsend : stOpen.send_command (cmd3 1 "O" 0) = (.ok (), [cmd3 1 "O" 0 ++ "\r"]) :=
    send_command_cmd3 stOpen 1 "O" 0 hopen (by decide)
  have hrun : Stage.setCurrRange stOpen 1 0 =
      (.ok (), [cmd3 1 "O" 0 ++ "\r"], { stOpen with controller_current_range := 2 }) := by
    simp only [Stage.setCurrRange]
    rw [show check_motor_input (.int 1) = .ok () from by decide]
    simp [hsend]
  refine ⟨?_, ?_, ?_, ?_, ?_⟩
  · show (mkStage (fun _ => true) none (31/50) true).amps_per_step =
      (mkStage (fun _ => true) none (31/50) true).controller_current_range / 31
    simp [mkStage, CONTROLLER_MAX_CURRENT_VALUE]
  · rw [hrun]
  · rw [hrun]
  · rw [hrun]
    exact haps
  · rw [hrun]
    show ({ stOpen with controller_current_range := 2 } : Stage).amps_per_step ≠ _
    simp only [haps]
    norm_num

/-- Claim C5: for every port string, when establishing the serial
connection fails, `open_connection` leaves the driver not connected
(`ser = None`) and propagates no exception (the model is total: the
failing branch returns the closed state); on success the handle is open;
and the serial constructor is consulted only at the upper-cased port name,
so the behaviour depends on the port identifier only through its
upper-casing. -/
theorem claim_C5_open_connection (st : Stage) (env : String → Bool) (port : String) :
    (env (pyUpper port) = false → (st.open_connection env port).ser = none) ∧
    (env (pyUpper port) = true → (st.open_connection env port).ser = some ⟨true⟩) ∧
    (∀ env2 : String → Bool, env2 (pyUpper port) = env (pyUpper port) →
      st.open_connection env2 port = st.open_connection env port) := by
  refine ⟨fun h => ?_, fun h => ?_, fun env2 h => ?_⟩
  · simp [Stage.open_connection, h]
  · simp [Stage.open_connection, h]
  · simp [Stage.open_connection, h]

/-- Claim C5 witness: a failing constructor leaves `ser = None`; a
successful one (for the same lower-case port string) stores an open
handle. -/
theorem claim_C5_witness :
    (stLow.open_connection (fun _ => false) "com3").ser = none ∧
    (stLow.open_connection (fun _ => true) "com3").ser = some ⟨true⟩ :=
  ⟨(claim_C5_open_connection stLow (fun _ => false) "com3").1 rfl,
   (claim_C5_open_connection stLow (fun _ => true) "com3").2.1 rfl⟩

/-- Claim C7: for every valid motor, `center(motor)` with the homed flag
false performs no transport call (and, the model being stateless here,
changes no driver or controller state); with the flag true it issues
exactly the goto-set-point-0 command `':{motor}d0'`. -/
theorem claim_C7_center (st : Stage) (motor : ℤ)
    (hopen : st.serial_is_open = true) (hm : motor = 0 ∨ motor = 1 ∨ motor = 2) :
    Controller.center st false motor = (.ok (), []) ∧
    Controller.center st true motor = (.ok (), [cmd3 motor "d" 0 ++ "\r"]) := by
  constructor
  · rfl
  · have hsend := send_command_cmd3 st motor "d" 0 hopen (by decide)
    rcases hm with rfl | rfl | rfl <;>
      simp [Controller.center, Stage.gotoSetPoint, check_motor_input, SET_POINTS, hsend]

/-- Claim C7 witness: `center` at motor 1. -/
theorem claim_C7_witness :
    Controller.center stOpen true 1 = (.ok (), [":1d0\r"]) ∧
    Controller.center stOpen false 1 = (.ok (), []) := by
  have h := claim_C7_center stOpen 1 (by decide) (Or.inr (Or.inl rfl))
  refine ⟨?_, h.1⟩
  rw [h.2]
  decide

/-- Claim C9 counterexample: the claim says any direction string other
than `"CW"`/`"CCW"` fails with an invalid-argument error, but the source
upper-cases the argument first, so `setDirection(1, "cw")` succeeds and
transmits `':1C0'`. -/
theorem claim_C9_counterexample :
    Stage.setDirection stOpen 1 "cw" = (.ok (), [":1C0\r"]) ∧
    ("cw" ≠ "CW" ∧ "cw" ≠ "CCW") := by
  refine ⟨by decide, by decide, by decide⟩

/-- Claim C9 (amended): `setDirection` upper-cases the direction first:
any string whose upper-casing is `"CW"` transmits `':{motor}C0'`, one
whose upper-casing is `"CCW"` transmits `':{motor}C1'`, and any other
string fails with a ValueError naming the valid options, with no
transport call. -/
theorem claim_C9_amended (st : Stage) (motor : ℤ) (direction : String)
    (hopen : st.serial_is_open = true) (hm : motor = 1 ∨ motor = 2) :
    (pyUpper direction = "CW" →
      st.setDirection motor direction = (.ok (), [cmd3 motor "C" 0 ++ "\r"])) ∧
    (pyUpper direction = "CCW" →
      st.setDirection motor direction = (.ok (), [cmd3 motor "C" 1 ++ "\r"])) ∧
    (pyUpper direction ≠ "CW" → pyUpper direction ≠ "CCW" →
      st.setDirection motor direction = (.error (.valueError
        ("Invalid direction " ++ direction ++
          ". Valid directions are \x22CW\x22 or \x22CCW\x22.")), [])) := by
  have hcheck : check_motor_input (.int motor) = .ok () := by
    rcases hm with rfl | rfl <;> decide
  refine ⟨fun h => ?_, fun h => ?_, fun h1 h2 => ?_⟩
  · simp [Stage.setDirection, hcheck, h,
      send_command_cmd3 st motor "C" 0 hopen (by decide)]
  · simp [Stage.setDirection, hcheck, h,
      send_command_cmd3 st motor "C" 1 hopen (by decide)]
  · simp [Stage.setDirection, hcheck, h1, h2]

/-- Claim C9 witness: the two valid directions at motor 2. -/
theorem claim_C9_witness :
    Stage.setDirection stOpen 2 "CW" = (.ok (), [":2C0\r"]) ∧
    Stage.setDirection stOpen 2 "CCW" = (.ok (), [":2C1\r"]) := by
  have h := claim_C9_amended stOpen 2 "CW" (by decide) (Or.inr rfl)
  have h2 := claim_C9_amended stOpen 2 "CCW" (by decide) (Or.inr rfl)
  constructor
  · rw [h.1 (by decide)]
    decide
  · rw [h2.2.1 (by decide)]
    decide

/-- Claim C10: for every motor in {1, 2}, `setBaud` maps 9600/19200/38400/
57600/115200 to device codes 1–5 and transmits `':{motor}B{code}'`; any
other integer fails with a ValueError listing the valid baud rates, with
no transport call. -/
theorem claim_C10_setBaud (st : Stage) (motor baud : ℤ)
    (hopen : st.serial_is_open = true) (hm : motor = 1 ∨ motor = 2) :
    (baud = 9600 → st.setBaud motor baud = (.ok (), [cmd3 motor "B" 1 ++ "\r"])) ∧
    (baud = 19200 → st.setBaud motor baud = (.ok (), [cmd3 motor "B" 2 ++ "\r"])) ∧
    (baud = 38400 → st.setBaud motor baud = (.ok (), [cmd3 motor "B" 3 ++ "\r"])) ∧
    (baud = 57600 → st.setBaud motor baud = (.ok (), [cmd3 motor "B" 4 ++ "\r"])) ∧
    (baud = 115200 → st.setBaud motor baud = (.ok (), [cmd3 motor "B" 5 ++ "\r"])) ∧
    (baud ≠ 9600 → baud ≠ 19200 → baud ≠ 38400 → baud ≠ 57600 → baud ≠ 115200 →
      st.setBaud motor baud = (.error (.valueError
        ("Invalid baud setting: " ++ toString baud ++
          ". Valid baud settings: [9600, 19200, 38400, 57600, 115200]")), [])) := by
  have hcheck : check_motor_input (.int motor) = .ok () := by
    rcases hm with rfl | rfl <;> decide
  refine ⟨fun h => ?_, fun h => ?_, fun h => ?_, fun h => ?_, fun h => ?_,
    fun h1 h2 h3 h4 h5 => ?_⟩
  · subst h
    simp [Stage.setBaud, hcheck, send_command_cmd3 st motor "B" 1 hopen (by decide)]
  · subst h
    simp [Stage.setBaud, hcheck, send_command_cmd3 st motor "B" 2 hopen (by decide)]
  · subst h
    simp [Stage.setBaud, hcheck, send_command_cmd3 st motor "B" 3 hopen (by decide)]
  · subst h
    simp [Stage.setBaud, hcheck, send_command_cmd3 st motor "B" 4 hopen (by decide)]
  · subst h
    simp [Stage.setBaud, hcheck, send_command_cmd3 st motor "B" 5 hopen (by decide)]
  · simp [Stage.setBaud, hcheck, h1, h2, h3, h4, h5]

/-- Claim C10 witness: 9600 maps to code 1; 1200 is rejected with the
message listing the valid rates and nothing is transmitted. -/
theorem claim_C10_witness :
    Stage.setBaud stOpen 1 9600 = (.ok (), [":1B1\r"]) ∧
    Stage.setBaud stOpen 1 1200 = (.error (.valueError
      "Invalid baud setting: 1200. Valid baud settings: [9600, 19200, 38400, 57600, 115200]"),
      []) := by
  have h := claim_C10_setBaud stOpen 1 9600 (by decide) (Or.inl rfl)
  have h2 := claim_C10_setBaud stOpen 1 1200 (by decide) (Or.inl rfl)
  constructor
  · rw [h.1 rfl]
    decide
  · rw [h2.2.2.2.2.2 (by decide) (by decide) (by decide) (by decide) (by decide)]
    decide

theorem strEndsWith_append_termterm (s : String) :
    strEndsWith (s ++ "\r") "\r\r" = strEndsWith s "\r" := by
  unfold strEndsWith
  rw [String.data_append]
  show List.isSuffixOf ['\r', '\r'] (s.data ++ ['\r']) = List.isSuffixOf ['\r'] s.data
  rw [List.isSuffixOf, List.isSuffixOf, List.reverse_append]
  show List.isPrefixOf ['\r', '\r'] ('\r' :: s.data.reverse) = _
  rw [List.isPrefixOf_cons₂]
  simp

/-- Claim C6 counterexample: the claim says the bytes written always end
in exactly one terminator; for the command `"x\r\r"` (which already ends
with the terminator and is therefore transmitted unchanged) the written
bytes end in two terminators. -/
theorem claim_C6_counterexample :
    Stage.send_command stOpen "x\r\r" = (.ok (), ["x\r\r"]) ∧
    endsInExactlyOneTerm "x\r\r" = false := by
  refine ⟨by decide, by decide⟩

/-- Claim C6 (amended): `_send_command` and `_send_query` append the
terminator exactly when the command does not already end with it, so a
command already ending in `'\r'` is transmitted unchanged; every byte
string written is the framed command, which always ends in a terminator,
and ends in exactly one terminator provided the original command does not
already end in `'\r\r'`; when the connection is not open both fail with
the not-connected RuntimeError and write nothing. -/
theorem claim_C6_amended (st : Stage) (command : String) :
    (st.serial_is_open = false →
      st.send_command command = (.error (.runtimeError notConnectedMsg), []) ∧
      ∀ raw, st.send_query raw command = (.error (.runtimeError notConnectedMsg), [])) ∧
    (∀ x ∈ (st.send_command command).2, x = frameCmd command) ∧
    (∀ raw, ∀ x ∈ (st.send_query raw command).2, x = frameCmd command) ∧
    (strEndsWith command "\r" = false → frameCmd command = command ++ "\r") ∧
    (strEndsWith command "\r" = true → frameCmd command = command) ∧
    strEndsWith (frameCmd command) "\r" = true ∧
    (strEndsWith command "\r\r" = false →
      endsInExactlyOneTerm (frameCmd command) = true) := by
  refine ⟨fun h => ⟨?_, fun raw => ?_⟩, fun x hx => ?_, fun raw x hx => ?_,
    fun h => ?_, fun h => ?_, frameCmd_endsWith_term command, fun h => ?_⟩
  · simp [Stage.send_command, h]
  · simp [Stage.send_query, h]
  · unfold Stage.send_command at hx
    split at hx
    · split at hx
      · simpa using hx
      · simp at hx
    · simp at hx
  · unfold Stage.send_query at hx
    split at hx
    · split at hx
      · split at hx <;> simpa using hx
      · simp at hx
    · simp at hx
  · simp [frameCmd, h]
  · simp [frameCmd, h]
  · unfold endsInExactlyOneTerm
    cases hc : strEndsWith command "\r"
    · have hf : frameCmd command = command ++ "\r" := by simp [frameCmd, hc]
      rw [hf, strEndsWith_append_term, strEndsWith_append_termterm, hc]
      rfl
    · have hf : frameCmd command = command := by simp [frameCmd, hc]
      rw [hf, hc, h]
      rfl

/-- Claim C6 witness: on a closed connection a command fails with the
not-connected error and writes nothing; on the open fixture the framed
command is the written byte string, ending in exactly one terminator. -/
theorem claim_C6_witness :
    Stage.send_command stClosed ":1A5" = (.error (.runtimeError notConnectedMsg), []) ∧
    frameCmd ":1A5" = ":1A5" ++ "\r" ∧
    endsInExactlyOneTerm (frameCmd ":1A5") = true :=
  ⟨((claim_C6_amended stClosed ":1A5").1 (by decide)).1,
   (claim_C6_amended stClosed ":1A5").2.2.2.1 (by decide),
   (claim_C6_amended stClosed ":1A5").2.2.2.2.2.2 (by decide)⟩

/-- Claim C3: for every motor in {1, 2} and every requested current with
`0 ≤ amps ≤ motor_max_current`, `setHoldingCurr` transmits
`':{motor}H{v}'` and `setRunCurr` transmits `':{motor}R{v}'` where
`v = max(0, min(round(amps / amps_per_step),
floor(motor_max_current / amps_per_step), 31))` (`claimCurrValue`); a
requested current below 0 or above `motor_max_current` is rejected with a
ValueError and no transmission. -/
theorem claim_C3_current_setters (st : Stage) (motor : ℤ) (amps : ℚ)
    (hopen : st.serial_is_open = true) (hm : motor = 1 ∨ motor = 2)
    (haps : 0 < st.amps_per_step) :
    (0 ≤ amps → amps ≤ st.motor_max_current →
      st.setHoldingCurr motor amps =
        (.ok (), [cmd3 motor "H" (claimCurrValue st amps) ++ "\r"]) ∧
      st.setRunCurr motor amps =
        (.ok (), [cmd3 motor "R" (claimCurrValue st amps) ++ "\r"])) ∧
    ((amps < 0 ∨ st.motor_max_current < amps) →
      (∃ msg, (st.setHoldingCurr motor amps).1 = .error (.valueError msg)) ∧
      (st.setHoldingCurr motor amps).2 = [] ∧
      (∃ msg, (st.setRunCurr motor amps).1 = .error (.valueError msg)) ∧
      (st.setRunCurr motor amps).2 = []) := by
  have hcheck : check_motor_input (.int motor) = .ok () := by
    rcases hm with rfl | rfl <;> decide
  constructor
  · intro h0 hmax
    have hnotneg : ¬ amps < 0 := not_lt.mpr h0
    have hnotmax : ¬ st.motor_max_current < amps := not_lt.mpr hmax
    have htrunc : pyIntTrunc (st.motor_max_current / st.amps_per_step) =
        ⌊st.motor_max_current / st.amps_per_step⌋ := by
      unfold pyIntTrunc
      rw [if_neg]
      push_neg
      exact div_nonneg (le_trans h0 hmax) (le_of_lt haps)
    constructor
    · simp only [Stage.setHoldingCurr, hcheck]
      rw [if_neg hnotneg, if_neg hnotmax, htrunc]
      exact send_command_cmd3 st motor "H" (claimCurrValue st amps) hopen (by decide)
    · simp only [Stage.setRunCurr, hcheck]
      rw [if_neg hnotneg, if_neg hnotmax, htrunc]
      exact send_command_cmd3 st motor "R" (claimCurrValue st amps) hopen (by decide)
  · intro h
    by_cases hneg : amps < 0
    · simp only [Stage.setHoldingCurr, Stage.setRunCurr, hcheck]
      rw [if_pos hneg, if_pos hneg]
      exact ⟨⟨_, rfl⟩, rfl, ⟨_, rfl⟩, rfl⟩
    · have hmax : st.motor_max_current < amps := h.resolve_left hneg
      simp only [Stage.setHoldingCurr, Stage.setRunCurr, hcheck]
      rw [if_neg hneg, if_neg hneg, if_pos hmax, if_pos hmax]
      exact ⟨⟨_, rfl⟩, rfl, ⟨_, rfl⟩, rfl⟩

/-- Claim C3 witness: with `motor_max_current = 0.62` and
`controller_current_range = 1.0` (so `amps_per_step = 1/31`), requesting
0.62 A transmits numeric suffix `19 = round(0.62/(1/31))`, which equals
its own clamp bound `floor(0.62/(1/31)) = 19`. -/
theorem claim_C3_witness :
    Stage.setHoldingCurr stOpen 1 (31/50) = (.ok (), [":1H19\r"]) ∧
    Stage.setRunCurr stOpen 1 (31/50) = (.ok (), [":1R19\r"]) ∧
    claimCurrValue stOpen (31/50) = 19 ∧
    pyRound ((31 : ℚ)/50 / (1/31)) = 19 ∧
    ⌊(31 : ℚ)/50 / (1/31)⌋ = 19 := by
  have hv : claimCurrValue stOpen (31/50) = 19 := by
    norm_num [claimCurrValue, stOpen, mkStage, Stage.open_connection,
      CONTROLLER_MAX_CURRENT_VALUE, pyRound]
  have hmm : stOpen.motor_max_current = 31/50 := by
    norm_num [stOpen, mkStage, Stage.open_connection]
  have haps : (0 : ℚ) < stOpen.amps_per_step := by
    norm_num [stOpen, mkStage, Stage.open_connection, CONTROLLER_MAX_CURRENT_VALUE]
  have h := (claim_C3_current_setters stOpen 1 (31/50) (by decide) (Or.inl rfl)
    haps).1 (by norm_num) (by rw [hmm])
  refine ⟨?_, ?_, hv, by norm_num [pyRound], by norm_num⟩
  · rw [h.1, hv]
    decide
  · rw [h.2, hv]
    decide

theorem stringMk_data (s : String) : String.mk s.data = s := by
  cases s
  rfl

theorem isDigitCh_mem {c : Char} (h : isDigitCh c = true) :
    c ∈ ['0', '1', '2', '3', '4', '5', '6', '7', '8', '9'] := by
  unfold isDigitCh at h
  obtain ⟨a, ha, hbeq⟩ := List.contains_iff_exists_mem_beq.mp h
  rw [show c = a from beq_iff_eq.mp hbeq]
  exact ha

theorem isIntLit_chars (s : String) (hp : isIntLit s = true) :
    s.data ≠ [] ∧
    ∀ c ∈ s.data, c ∈ ['-', '0', '1', '2', '3', '4', '5', '6', '7', '8', '9'] := by
  unfold isIntLit at hp
  rcases hd : s.data with _ | ⟨a, t⟩
  · rw [hd] at hp
    simp at hp
  · rw [hd] at hp
    replace hp : (if a = '-' then !t.isEmpty && t.all isDigitCh
        else (a :: t).all isDigitCh) = true := hp
    refine ⟨by simp, ?_⟩
    intro c hc
    by_cases ha : a = '-'
    · rw [if_pos ha] at hp
      obtain ⟨-, hall⟩ := (Bool.and_eq_true _ _).mp hp
      rcases List.mem_cons.mp hc with rfl | hc
      · rw [ha]
        simp
      · exact List.mem_cons_of_mem _
          (isDigitCh_mem (List.all_eq_true.mp hall c hc))
    · rw [if_neg ha] at hp
      exact List.mem_cons_of_mem _
        (isDigitCh_mem (List.all_eq_true.mp hp c hc))

theorem readUntilTerm_append (l : List Char) (h : '\r' ∉ l) :
    readUntilTerm (l ++ ['\r']) = l ++ ['\r'] := by
  induction l with
  | nil => rfl
  | cons c rest ih =>
    have hc : c ≠ '\r' := fun hc => h (hc ▸ List.mem_cons_self c rest)
    show readUntilTerm (c :: (rest ++ ['\r'])) = _
    unfold readUntilTerm
    rw [if_neg hc, ih (fun hm => h (List.mem_cons_of_mem c hm))]
    rfl

theorem dropWhile_eq_self_of_all (l : List Char)
    (h : ∀ c ∈ l, pyIsSpace c = false) :
    l.dropWhile pyIsSpace = l := by
  cases l with
  | nil => rfl
  | cons c rest =>
    rw [List.dropWhile_cons]
    rw [h c (List.mem_cons_self c rest)]
    simp

theorem pyStripL_append_term (l : List Char)
    (h : ∀ c ∈ l, pyIsSpace c = false) :
    pyStripL (l ++ ['\r']) = l := by
  unfold pyStripL
  cases l with
  | nil => rfl
  | cons c rest =>
    rw [List.cons_append, List.dropWhile_cons]
    rw [h c (List.mem_cons_self c rest)]
    simp only [Bool.false_eq_true, if_false]
    have h1 : (c :: (rest ++ ['\r'])).reverse = '\r' :: (rest.reverse ++ [c]) := by
      simp
    have hall : ∀ x ∈ rest.reverse ++ [c], pyIsSpace x = false := by
      intro x hx
      rcases List.mem_append.mp hx with hx | hx
      · exact h x (List.mem_cons_of_mem c (List.mem_reverse.mp hx))
      · rw [List.mem_singleton.mp hx]
        exact h c (List.mem_cons_self c rest)
    rw [h1, List.dropWhile_cons]
    rw [show pyIsSpace '\r' = true from rfl]
    simp only [if_true]
    rw [dropWhile_eq_self_of_all (rest.reverse ++ [c]) hall]
    simp

theorem isPrefixOf_append_self (p rest : List Char) :
    List.isPrefixOf p (p ++ rest) = true := by
  induction p with
  | nil => simp
  | cons a as ih =>
    rw [List.cons_append, List.isPrefixOf_cons₂, ih]
    simp

theorem replAux_no_colon (pd : List Char) :
    ∀ (fuel : ℕ) (l : List Char), ':' ∉ l →
      replAux (':' :: pd) [] fuel l = l := by
  intro fuel
  induction fuel with
  | zero =>
    intro l _
    cases l <;> rfl
  | succ fuel ih =>
    intro l hl
    cases l with
    | nil => rfl
    | cons c rest =>
      have hc : c ≠ ':' := fun hc => hl (hc ▸ List.mem_cons_self c rest)
      have hpre : List.isPrefixOf (':' :: pd) (c :: rest) = false := by
        rw [List.isPrefixOf_cons₂]
        have : (':' == c) = false := by
          rw [beq_eq_false_iff_ne]
          exact fun h => hc h.symm
        rw [this]
        rfl
      unfold replAux
      rw [hpre]
      simp only [Bool.false_eq_true, if_false]
      rw [ih rest (fun hm => hl (List.mem_cons_of_mem c hm))]

theorem replAux_removes_echo (pd rest : List Char) (h : ':' ∉ rest) :
    ∀ fuel : ℕ, replAux (':' :: pd) [] (fuel + 1) ((':' :: pd) ++ rest) = rest := by
  intro fuel
  show replAux (':' :: pd) [] (fuel + 1) (':' :: (pd ++ rest)) = rest
  unfold replAux
  rw [show List.isPrefixOf (':' :: pd) (':' :: (pd ++ rest)) = true from
    isPrefixOf_append_self (':' :: pd) rest]
  simp only [if_true]
  rw [show List.drop (':' :: pd).length (':' :: (pd ++ rest)) = rest from by
    rw [show (':' :: (pd ++ rest)) = (':' :: pd) ++ rest from rfl]
    exact List.drop_left _ _]
  rw [replAux_no_colon pd fuel rest h]
  rfl

theorem pyReplace_id (s pat : String) (pd : List Char) (hpat : pat.data = ':' :: pd)
    (h : ':' ∉ s.data) : pyReplace s pat "" = s := by
  unfold pyReplace
  rw [hpat, show ("" : String).data = [] from rfl]
  rw [replAux_no_colon pd _ _ h, stringMk_data]

theorem pyReplace_echo (pat payload : String) (pd : List Char)
    (hpat : pat.data = ':' :: pd) (h : ':' ∉ payload.data) :
    pyReplace (String.mk (pat.data ++ payload.data)) pat "" = payload := by
  unfold pyReplace
  rw [show (String.mk (pat.data ++ payload.data)).data = pat.data ++ payload.data from rfl]
  rw [hpat, show ("" : String).data = [] from rfl]
  obtain ⟨k, hk⟩ : ∃ k, ((':' :: pd) ++ payload.data).length = k + 1 :=
    ⟨pd.length + payload.data.length, by
      rw [List.length_append, List.length_cons]
      omega⟩
  rw [hk, replAux_removes_echo pd payload.data h k, stringMk_data]

theorem serial_open_some (st : Stage) (hopen : st.serial_is_open = true) :
    ∃ h, st.ser = some h := by
  unfold Stage.serial_is_open at hopen
  cases hser : st.ser with
  | none => rw [hser] at hopen; cases hopen
  | some h => exact ⟨h, rfl⟩

theorem readline_clean (st : Stage) (raw : String) (l : List Char)
    (hopen : st.serial_is_open = true)
    (hdata : raw.data = l ++ ['\r'])
    (hnr : '\r' ∉ l)
    (hns : ∀ c ∈ l, pyIsSpace c = false)
    (hascii : (l ++ ['\r']).all asciiChar = true) :
    st.readline raw = .ok (String.mk l) := by
  obtain ⟨hh, hser⟩ := serial_open_some st hopen
  simp only [Stage.readline, hser]
  rw [hdata, readUntilTerm_append l hnr, hascii]
  simp only [if_true]
  rw [pyStripL_append_term l hns]

theorem send_query_clean (st : Stage) (raw query : String) (l : List Char)
    (hopen : st.serial_is_open = true)
    (hfascii : isAscii (frameCmd query) = true)
    (hdata : raw.data = l ++ ['\r'])
    (hnr : '\r' ∉ l)
    (hns : ∀ c ∈ l, pyIsSpace c = false)
    (hascii : (l ++ ['\r']).all asciiChar = true) :
    st.send_query raw query = (.ok (String.mk l), [frameCmd query]) := by
  unfold Stage.send_query
  rw [if_pos hopen, if_pos hfascii]
  rw [readline_clean st raw l hopen hdata hnr hns hascii]

theorem getPos_of_query (st : Stage) (motor : ℤ) (raw resp : String)
    (w : List String)
    (hcheck : check_motor_input (.int motor) = .ok ())
    (hq : st.send_query raw (cmd2 motor "p") = (.ok resp, w)) :
    Stage.getPos st raw motor = (pyInt (pyReplace resp (cmd2 motor "p") ""), w) := by
  simp only [Stage.getPos, hcheck, hq]
  cases hpi : pyInt (pyReplace resp (cmd2 motor "p") "") <;> simp [hpi]

/-- Claim C8: round trip of query and echo stripping. For every motor in
{1, 2} and every well-formed integer payload, if the device's raw response
to the `':{motor}p'` query of `getPos` is either the echoed form
`':{motor}p{payload}\r'` or the bare form `'{payload}\r'`, then `getPos`
writes exactly the framed query and returns the integer parse of the
payload (the raw response with the echoed command prefix stripped); in
particular a response `':1p12345\r'` yields the integer 12345 (witness).
-/
theorem claim_C8_getPos (st : Stage) (motor : ℤ) (payload raw : String)
    (hopen : st.serial_is_open = true) (hm : motor = 1 ∨ motor = 2)
    (hp : isIntLit payload = true)
    (hraw : raw = cmd2 motor "p" ++ payload ++ "\r" ∨ raw = payload ++ "\r") :
    Stage.getPos st raw motor = (pyInt payload, [cmd2 motor "p" ++ "\r"]) := by
  have hcheck : check_motor_input (.int motor) = .ok () := by
    rcases hm with rfl | rfl <;> decide
  obtain ⟨hpne, hpd⟩ := isIntLit_chars payload hp
  have hcm_data : (cmd2 motor "p").data = ':' :: ((toString motor).data ++ ['p']) := by
    rw [show cmd2 motor "p" = cmdCore motor "p" from rfl, cmdCore_data]
  obtain ⟨-, hts, -⟩ := intStr_spec motor
  have hframe : frameCmd (cmd2 motor "p") = cmd2 motor "p" ++ "\r" :=
    frame_cmd2 motor "p" 'p' rfl (by decide)
  have hfascii : isAscii (frameCmd (cmd2 motor "p")) = true := by
    rw [hframe, isAscii_append, cmd2_ascii motor "p" (by decide)]
    rfl
  have hpcolon : ':' ∉ payload.data := by
    intro hmem
    exact absurd (hpd ':' hmem) (by decide)
  have hcm_chars : ∀ c ∈ (cmd2 motor "p").data,
      c ∈ [':', 'p', '-', '0', '1', '2', '3', '4', '5', '6', '7', '8', '9'] := by
    intro c hc
    rw [hcm_data] at hc
    rcases List.mem_cons.mp hc with rfl | hc
    · simp
    · rcases List.mem_append.mp hc with hc | hc
      · have hmem := hts c hc
        fin_cases hmem <;> decide
      · rw [List.mem_singleton.mp hc]
        decide
  have hpay_chars : ∀ c ∈ payload.data,
      c ∈ [':', 'p', '-', '0', '1', '2', '3', '4', '5', '6', '7', '8', '9'] := by
    intro c hc
    have hmem := hpd c hc
    fin_cases hmem <;> decide
  rcases hraw with rfl | rfl
  · -- echoed response
    have hlc : ∀ c ∈ (cmd2 motor "p").data ++ payload.data,
        c ∈ [':', 'p', '-', '0', '1', '2', '3', '4', '5', '6', '7', '8', '9'] := by
      intro c hc
      rcases List.mem_append.mp hc with hc | hc
      · exact hcm_chars c hc
      · exact hpay_chars c hc
    have hdata : (cmd2 motor "p" ++ payload ++ "\r").data =
        ((cmd2 motor "p").data ++ payload.data) ++ ['\r'] := by
      rw [String.data_append, String.data_append]
    have hnr : '\r' ∉ (cmd2 motor "p").data ++ payload.data :=
      fun hmem => absurd (hlc '\r' hmem) (by decide)
    have hns : ∀ c ∈ (cmd2 motor "p").data ++ payload.data, pyIsSpace c = false := by
      intro c hc
      have hmem := hlc c hc
      fin_cases hmem <;> decide
    have hascii : (((cmd2 motor "p").data ++ payload.data) ++ ['\r']).all asciiChar = true := by
      rw [List.all_eq_true]
      intro c hc
      rcases List.mem_append.mp hc with hc | hc
      · have hmem := hlc c hc
        fin_cases hmem <;> decide
      · rw [List.mem_singleton.mp hc]
        decide
    rw [getPos_of_query st motor _ (String.mk ((cmd2 motor "p").data ++ payload.data))
      [frameCmd (cmd2 motor "p")] hcheck
      (send_query_clean st _ (cmd2 motor "p") _ hopen hfascii hdata hnr hns hascii)]
    rw [pyReplace_echo (cmd2 motor "p") payload _ hcm_data hpcolon, hframe]
  · -- bare response
    have hdata : (payload ++ "\r").data = payload.data ++ ['\r'] := by
      rw [String.data_append]
    have hnr : '\r' ∉ payload.data :=
      fun hmem => absurd (hpay_chars '\r' hmem) (by decide)
    have hns : ∀ c ∈ payload.data, pyIsSpace c = false := by
      intro c hc
      have hmem := hpay_chars c hc
      fin_cases hmem <;> decide
    have hascii : (payload.data ++ ['\r']).all asciiChar = true := by
      rw [List.all_eq_true]
      intro c hc
      rcases List.mem_append.mp hc with hc | hc
      · have hmem := hpay_chars c hc
        fin_cases hmem <;> decide
      · rw [List.mem_singleton.mp hc]
        decide
    rw [getPos_of_query st motor _ (String.mk payload.data)
      [frameCmd (cmd2 motor "p")] hcheck
      (send_query_clean st _ (cmd2 motor "p") _ hopen hfascii hdata hnr hns hascii)]
    rw [stringMk_data, pyReplace_id payload (cmd2 motor "p") _ hcm_data hpcolon, hframe]

/-- Claim C8 witness: the device response `':1p12345\r'` for `getPos(1)`
yields the integer 12345; the bare response `'12345\r'` yields the same. -/
theorem claim_C8_witness :
    Stage.getPos stOpen ":1p12345\r" 1 = (.ok 12345, [":1p\r"]) ∧
    Stage.getPos stOpen "12345\r" 1 = (.ok 12345, [":1p\r"]) := by
  have h1 := claim_C8_getPos stOpen 1 "12345" ":1p12345\r" (by decide) (Or.inl rfl)
    (by decide) (Or.inl (by decide))
  have h2 := claim_C8_getPos stOpen 1 "12345" "12345\r" (by decide) (Or.inl rfl)
    (by decide) (Or.inr (by decide))
  constructor
  · rw [h1]
    decide
  · rw [h2]
    decide

theorem stringExt (a b : String) (h : a.data = b.data) : a = b := by
  rw [← stringMk_data a, ← stringMk_data b, h]

theorem cmdCore_append (m : ℤ) (r t : String) :
    cmdCore m r ++ t = cmdCore m (r ++ t) := by
  apply stringExt
  rw [String.data_append, cmdCore_data, cmdCore_data, String.data_append]
  simp

theorem cmdCore_ne (m : ℤ) (r1 r2 : String)
    (h : r1.data.head? ≠ r2.data.head?) : cmdCore m r1 ≠ cmdCore m r2 := by
  intro he
  have hd := congrArg String.data he
  rw [cmdCore_data, cmdCore_data] at hd
  injection hd with _ hd2
  exact h (by rw [List.append_cancel_left hd2])

theorem head?_append_left (s t : String) (c : Char)
    (h : s.data.head? = some c) : (s ++ t).data.head? = some c := by
  rw [String.data_append]
  cases hd : s.data with
  | nil => rw [hd] at h; cases h
  | cons a l =>
    rw [hd] at h
    injection h with h
    rw [← h]
    rfl

theorem frame_ne_of_heads (m : ℤ) (r1 r2 : String) (c1 c2 : Char)
    (h1 : r1.data.head? = some c1) (h2 : r2.data.head? = some c2) (hc : c1 ≠ c2) :
    cmdCore m r1 ++ "\r" ≠ cmdCore m r2 ++ "\r" := by
  rw [cmdCore_append, cmdCore_append]
  apply cmdCore_ne
  rw [head?_append_left _ _ c1 h1, head?_append_left _ _ c2 h2]
  simp [hc]

theorem count_single_ne {a b : String} (h : b ≠ a) : List.count a [b] = 0 := by
  simp [List.count_cons, h]

theorem count_of_writes {w : List String} {cmd b : String}
    (hw : w = [] ∨ w = [cmd]) (h : b ≠ cmd) : w.count b = 0 := by
  rcases hw with rfl | rfl
  · rfl
  · exact count_single_ne (fun he => h he.symm)

theorem send_command_writes (st : Stage) (c : String) :
    (st.send_command c).2 = [] ∨ (st.send_command c).2 = [frameCmd c] := by
  unfold Stage.send_command
  split
  · split
    · right; rfl
    · left; rfl
  · left; rfl

theorem send_query_writes (st : Stage) (raw q : String) :
    (st.send_query raw q).2 = [] ∨ (st.send_query raw q).2 = [frameCmd q] := by
  unfold Stage.send_query
  split
  · split
    · split
      · right; rfl
      · right; rfl
    · left; rfl
  · left; rfl

theorem getNVVelocity_writes (st : Stage) (raw : String) (motor : ℤ) :
    (st.getNVVelocity raw motor).2 = [] ∨
    (st.getNVVelocity raw motor).2 = [frameCmd (cmd2 motor "v")] := by
  unfold Stage.getNVVelocity
  split
  · left; rfl
  · split
    · rename_i e w heq
      have hw := send_query_writes st raw (cmd2 motor "v")
      rw [heq] at hw
      exact hw
    · rename_i resp w heq
      have hw := send_query_writes st raw (cmd2 motor "v")
      rw [heq] at hw
      split
      · exact hw
      · exact hw

theorem getPos_writes (st : Stage) (raw : String) (motor : ℤ) :
    (st.getPos raw motor).2 = [] ∨
    (st.getPos raw motor).2 = [frameCmd (cmd2 motor "p")] := by
  unfold Stage.getPos
  split
  · left; rfl
  · split
    · rename_i e w heq
      have hw := send_query_writes st raw (cmd2 motor "p")
      rw [heq] at hw
      exact hw
    · rename_i resp w heq
      have hw := send_query_writes st raw (cmd2 motor "p")
      rw [heq] at hw
      split
      · exact hw
      · exact hw

theorem getIdxStates_writes (st : Stage) (raw : String) (motor : ℤ) :
    (st.getIdxStates raw motor).2 = [] ∨
    (st.getIdxStates raw motor).2 = [frameCmd (cmd2 motor "l")] := by
  unfold Stage.getIdxStates
  split
  · left; rfl
  · split
    · rename_i e w heq
      have hw := send_query_writes st raw (cmd2 motor "l")
      rw [heq] at hw
      exact hw
    · rename_i resp w heq
      have hw := send_query_writes st raw (cmd2 motor "l")
      rw [heq] at hw
      split
      · exact hw
      · exact hw

theorem setVelocity_writes (st : Stage) (motor v : ℤ) :
    (st.setVelocity motor v).2 = [] ∨
    (st.setVelocity motor v).2 = [frameCmd (cmd3 motor "v" v)] := by
  unfold Stage.setVelocity
  split
  · left; rfl
  · split
    · exact send_command_writes st (cmd3 motor "v" v)
    · left; rfl

theorem gotoPos_writes (st : Stage) (motor p : ℤ) :
    (st.gotoPos motor p).2 = [] ∨
    (st.gotoPos motor p).2 = [frameCmd (cmd3 motor "p" p)] := by
  unfold Stage.gotoPos
  split
  · left; rfl
  · split
    · exact send_command_writes st (cmd3 motor "p" p)
    · left; rfl

theorem jog_writes (st : Stage) (motor v : ℤ) :
    (st.jog motor v).2 = [] ∨
    (st.jog motor v).2 = [frameCmd (cmd3 motor "j" v)] := by
  unfold Stage.jog
  split
  · left; rfl
  · exact send_command_writes st (cmd3 motor "j" v)

theorem halt_writes (st : Stage) (motor v : ℤ) :
    (st.halt motor v).2 = [] ∨
    (st.halt motor v).2 = [frameCmd (cmd3 motor "h" v)] := by
  unfold Stage.halt
  split
  · left; rfl
  · split
    · exact send_command_writes st (cmd3 motor "h" v)
    · left; rfl

theorem initMotor_writes (st : Stage) (motor : ℤ) :
    (st.initMotor motor).2 = [] ∨
    (st.initMotor motor).2 = [frameCmd (cmd2 motor "i1")] := by
  unfold Stage.initMotor
  split
  · left; rfl
  · exact send_command_writes st (cmd2 motor "i1")

theorem pollLoop_count (dev : HomeDevice) (intr : ℕ → Bool) (st : Stage)
    (motor : ℤ) (target : ℤ) (b : String)
    (hbl : b ≠ frameCmd (cmd2 motor "l")) (hbp : b ≠ frameCmd (cmd2 motor "p")) :
    ∀ (fuel : ℕ) (i2 : ℤ) (n : ℕ),
      (pollLoop dev intr st motor target fuel i2 n).2.count b = 0 := by
  intro fuel
  induction fuel with
  | zero =>
    intro i2 n
    unfold pollLoop
    split
    · rfl
    · rfl
  | succ fuel ih =>
    intro i2 n
    unfold pollLoop
    split
    · rfl
    · split
      · rfl
      · split
        · rename_i e w heq
          have hw := getIdxStates_writes st (dev.idx n) motor
          rw [heq] at hw
          exact count_of_writes hw hbl
        · rename_i vals w1 heq
          have hw1 := getIdxStates_writes st (dev.idx n) motor
          rw [heq] at hw1
          split
          · exact count_of_writes hw1 hbl
          · split
            · rename_i e w2 heq2
              have hw2 := getPos_writes st (dev.pos n) motor
              rw [heq2] at hw2
              rw [List.count_append, count_of_writes hw1 hbl,
                count_of_writes hw2 hbp]
            · rename_i u w2 heq2
              have hw2 := getPos_writes st (dev.pos n) motor
              rw [heq2] at hw2
              show (w1 ++ w2 ++ _).count b = 0
              rw [List.count_append, List.count_append,
                count_of_writes hw1 hbl, count_of_writes hw2 hbp, ih]

theorem pair_eta_of_fst {p : HomeOutcome × List String}
    (h : p.1 = HomeOutcome.interrupted) : p = (HomeOutcome.interrupted, p.2) := by
  rw [← h]

theorem seqW_count {α : Type} (x : Except PyError α × List String)
    (f : α → HomeOutcome × List String) (b : String) (k1 k2 : ℕ)
    (hx : x.2.count b ≤ k1)
    (hf : ∀ a, (f a).1 = HomeOutcome.interrupted → (f a).2.count b ≤ k2) :
    ∀ w, seqW x f = (HomeOutcome.interrupted, w) → w.count b ≤ k1 + k2 := by
  intro w hw
  rcases x with ⟨r, wx⟩
  cases r with
  | error e =>
    unfold seqW at hw
    simp at hw
  | ok a =>
    unfold seqW at hw
    simp only [Prod.mk.injEq] at hw
    obtain ⟨h1, h2⟩ := hw
    rw [← h2, List.count_append]
    exact add_le_add hx (hf a h1)

theorem seqP_count (x : PollExit × List String)
    (f : ℤ → ℕ → HomeOutcome × List String) (b : String) (k1 k2 : ℕ)
    (hx : x.2.count b ≤ k1)
    (hf : ∀ i2 n, (f i2 n).1 = HomeOutcome.interrupted → (f i2 n).2.count b ≤ k2) :
    ∀ w, seqP x f = (HomeOutcome.interrupted, w) → w.count b ≤ k1 + k2 := by
  intro w hw
  rcases x with ⟨r, wx⟩
  cases r with
  | done i2 n =>
    unfold seqP at hw
    simp only [Prod.mk.injEq] at hw
    obtain ⟨h1, h2⟩ := hw
    rw [← h2, List.count_append]
    exact add_le_add hx (hf i2 n h1)
  | interrupted =>
    unfold seqP at hw
    simp only [Prod.mk.injEq] at hw
    rw [← hw.2]
    exact le_trans hx (Nat.le_add_right k1 k2)
  | failed e =>
    unfold seqP at hw
    simp at hw
  | outOfFuel =>
    unfold seqP at hw
    simp at hw

theorem homeBody_interrupted_count (dev : HomeDevice) (intr : ℕ → Bool)
    (fuel : ℕ) (st : Stage) (motor : ℤ) (speed0 : Option ℤ) :
    ∀ w, homeBody dev intr fuel st motor speed0 = (HomeOutcome.interrupted, w) →
      w.count (frameCmd (cmd3 motor "h" 1)) ≤ 1 := by
  intro w hw
  have hhead1 : (("h" ++ toString (1 : ℤ)) : String).data.head? = some 'h' :=
    head?_append_left "h" (toString (1 : ℤ)) 'h' rfl
  have hbl : frameCmd (cmd3 motor "h" 1) ≠ frameCmd (cmd2 motor "l") := by
    rw [frame_cmd3, frame_cmd2 motor "l" 'l' rfl (by decide)]
    exact frame_ne_of_heads motor _ _ 'h' 'l' hhead1 rfl (by decide)
  have hbp2 : frameCmd (cmd3 motor "h" 1) ≠ frameCmd (cmd2 motor "p") := by
    rw [frame_cmd3, frame_cmd2 motor "p" 'p' rfl (by decide)]
    exact frame_ne_of_heads motor _ _ 'h' 'p' hhead1 rfl (by decide)
  have hbv2 : frameCmd (cmd3 motor "h" 1) ≠ frameCmd (cmd2 motor "v") := by
    rw [frame_cmd3, frame_cmd2 motor "v" 'v' rfl (by decide)]
    exact frame_ne_of_heads motor _ _ 'h' 'v' hhead1 rfl (by decide)
  have hbv3 : ∀ v : ℤ, frameCmd (cmd3 motor "h" 1) ≠ frameCmd (cmd3 motor "v" v) := by
    intro v
    rw [frame_cmd3, frame_cmd3]
    exact frame_ne_of_heads motor _ _ 'h' 'v' hhead1
      (head?_append_left "v" (toString v) 'v' rfl) (by decide)
  have hbp3 : ∀ v : ℤ, frameCmd (cmd3 motor "h" 1) ≠ frameCmd (cmd3 motor "p" v) := by
    intro v
    rw [frame_cmd3, frame_cmd3]
    exact frame_ne_of_heads motor _ _ 'h' 'p' hhead1
      (head?_append_left "p" (toString v) 'p' rfl) (by decide)
  have hbj : ∀ v : ℤ, frameCmd (cmd3 motor "h" 1) ≠ frameCmd (cmd3 motor "j" v) := by
    intro v
    rw [frame_cmd3, frame_cmd3]
    exact frame_ne_of_heads motor _ _ 'h' 'j' hhead1
      (head?_append_left "j" (toString v) 'j' rfl) (by decide)
  have hbi : frameCmd (cmd3 motor "h" 1) ≠ frameCmd (cmd2 motor "i1") := by
    rw [frame_cmd3, frame_cmd2 motor "i1" '1' rfl (by decide)]
    exact frame_ne_of_heads motor _ _ 'h' 'i' hhead1 rfl (by decide)
  unfold homeBody at hw
  refine le_trans (seqW_count _ _ _ 0 1 ?_ ?_ w hw) (by norm_num)
  · rcases speed0 with _ | s
    · exact le_of_eq (count_of_writes (getNVVelocity_writes st dev.nv1 motor) hbv2)
    · show (if s ≠ 0 then ((.ok s, []) : Except PyError ℤ × List String)
        else st.getNVVelocity dev.nv1 motor).2.count _ ≤ 0
      split
      · simp
      · exact le_of_eq (count_of_writes (getNVVelocity_writes st dev.nv1 motor) hbv2)
  · intro speed h1
    refine le_trans (seqW_count _ _ _ 0 1
      (le_of_eq (count_of_writes (getNVVelocity_writes st dev.nv2 motor) hbv2)) ?_
      _ (pair_eta_of_fst h1)) (by norm_num)
    intro nv h2
    refine le_trans (seqW_count _ _ _ 0 1 ?_ ?_ _ (pair_eta_of_fst h2)) (by norm_num)
    · show (if speed ≠ nv then st.setVelocity motor speed
        else ((.ok (), []) : Except PyError Unit × List String)).2.count _ ≤ 0
      split
      · exact le_of_eq (count_of_writes (setVelocity_writes st motor speed) (hbv3 speed))
      · simp
    · intro u h3
      refine le_trans (seqW_count _ _ _ 0 1
        (le_of_eq (count_of_writes (gotoPos_writes st motor _) (hbp3 _))) ?_
        _ (pair_eta_of_fst h3)) (by norm_num)
      intro u2 h4
      refine le_trans (seqW_count _ _ _ 0 1
        (le_of_eq (count_of_writes (getIdxStates_writes st (dev.idx 0) motor) hbl)) ?_
        _ (pair_eta_of_fst h4)) (by norm_num)
      intro vals h5
      refine le_trans (seqW_count _ _ _ 0 1 (by simp) ?_ _ (pair_eta_of_fst h5))
        (by norm_num)
      intro i2 h6
      refine le_trans (seqP_count _ _ _ 0 1
        (le_of_eq (pollLoop_count dev intr st motor 1 _ hbl hbp2 fuel i2 1)) ?_
        _ (pair_eta_of_fst h6)) (by norm_num)
      intro i2b n h7
      refine le_trans (seqW_count _ _ _ 1 0 ?_ ?_ _ (pair_eta_of_fst h7)) (by norm_num)
      · rcases halt_writes st motor 1 with hh | hh <;> rw [hh] <;>
          simp [List.count_cons]
      · intro u3 h8
        refine le_trans (seqW_count _ _ _ 0 0
          (le_of_eq (count_of_writes (setVelocity_writes st motor 1000) (hbv3 1000))) ?_
          _ (pair_eta_of_fst h8)) (by norm_num)
        intro u4 h9
        refine le_trans (seqW_count _ _ _ 0 0
          (le_of_eq (count_of_writes (jog_writes st motor 5000) (hbj 5000))) ?_
          _ (pair_eta_of_fst h9)) (by norm_num)
        intro u5 h10
        refine le_trans (seqP_count _ _ _ 0 0
          (le_of_eq (pollLoop_count dev intr st motor 0 _ hbl hbp2 fuel i2b n)) ?_
          _ (pair_eta_of_fst h10)) (by norm_num)
        intro i2c nc h11
        refine le_trans (seqW_count _ _ _ 0 0
          (le_of_eq (count_of_writes (initMotor_writes st motor) hbi)) ?_
          _ (pair_eta_of_fst h11)) (by norm_num)
        intro u6 h12
        exact absurd h12 (by simp)

/-- Claim C2 (amended): if `home(motor, speed)` is interrupted by the user
during one of its polling loops, the interrupt handler sends exactly one
halt command to that motor before the interrupt is re-raised — it is the
final byte string written — and at most one further halt (the limit-found
halt, already sent when the interrupt falls in the back-off loop) precedes
it, so the run sends one or two halts in total; the controller's homed
flag remains false. -/
theorem claim_C2_amended (dev : HomeDevice) (intr : ℕ → Bool) (fuel : ℕ)
    (st : Stage) (motor : ℤ) (speed0 : Option ℤ)
    (hopen : st.serial_is_open = true) (hm : motor = 1 ∨ motor = 2) :
    (Controller.home dev intr fuel st false motor speed0).outcome =
        HomeOutcome.interrupted →
      (Controller.home dev intr fuel st false motor speed0).homed = false ∧
      ∃ w, (Controller.home dev intr fuel st false motor speed0).written =
          w ++ [cmd3 motor "h" 1 ++ "\r"] ∧
        w.count (cmd3 motor "h" 1 ++ "\r") ≤ 1 := by
  intro hout
  have hcheck : check_motor_input (.int motor) = .ok () := by
    rcases hm with rfl | rfl <;> decide
  have hhalt : st.halt motor 1 = (.ok (), [cmd3 motor "h" 1 ++ "\r"]) := by
    simp only [Stage.halt, hcheck]
    split
    · exact send_command_cmd3 st motor "h" 1 hopen (by decide)
    · rename_i hcond
      exact absurd (Or.inl trivial) hcond
  unfold Controller.home at hout ⊢
  rcases hb : homeBody dev intr fuel st motor speed0 with ⟨o, w⟩
  rw [hb] at hout
  cases o with
  | completed => exact HomeOutcome.noConfusion hout
  | interrupted =>
    rw [hhalt]
    refine ⟨rfl, w, rfl, ?_⟩
    rw [← frame_cmd3 motor "h" 1]
    exact homeBody_interrupted_count dev intr fuel st motor speed0 w hb
  | failed e => exact HomeOutcome.noConfusion hout
  | outOfFuel => exact HomeOutcome.noConfusion hout

/-- Claim C2 witness: a run on motor 1 interrupted during the seek loop
(the input-2 switch never activates, the interrupt arrives at the first
polling iteration) is cancelled with the handler's halt as the final
write, at most one earlier halt, and the homed flag still false. -/
theorem claim_C2_witness :
    (Controller.home cdevW cintr 10 stOpen false 1 (some 2000)).outcome =
      HomeOutcome.interrupted ∧
    (Controller.home cdevW cintr 10 stOpen false 1 (some 2000)).homed = false ∧
    ∃ w, (Controller.home cdevW cintr 10 stOpen false 1 (some 2000)).written =
        w ++ [cmd3 1 "h" 1 ++ "\r"] ∧
      w.count (cmd3 1 "h" 1 ++ "\r") ≤ 1 := by
  have h := claim_C2_amended cdevW cintr 10 stOpen 1 (some 2000)
    (by decide) (Or.inl rfl) (by decide)
  exact ⟨by decide, h.1, h.2⟩
